import Mathlib

/-!
Verification of the omni-cli agent core.

A shallow embedding of the agent orchestration core of omni-cli
(`src/agent.ts`, `src/tools/index.ts`, `src/types.ts`) together with
proofs of the specified properties.

Modelling conventions:
* TypeScript strings are Lean `String`s; tool argument objects are
  modelled by their JSON serialization, a `String`.
* Impure inputs (fresh UUIDs, `Date.now()`, the loaded context files)
  are passed as explicit arguments.
* A tool executor that may throw is modelled as a function into
  `Except String ToolResult`; the `catch` in `executeTool` becomes a
  `match` on that result.
* The streaming model backend (the external `ai` package) is opaque to
  this repository; a `chat` call consumes a list of stream events plus
  a final usage outcome.  A connector failure at any point is modelled
  by passing the prefix of events consumed before the failure together
  with an error outcome.
-/

namespace OmniCli

/-- Tool argument objects, modelled by their JSON serialization. -/
abbrev Args := String

/-- Message roles of the `ai` package's `CoreMessage`. -/
inductive Role where
  | system
  | user
  | assistant
  | tool
deriving DecidableEq, Repr

/-- A conversation message (`CoreMessage`): role plus string content. -/
structure Message where
  role : Role
  content : String
deriving DecidableEq, Repr

/-- `ToolResult` from `src/types.ts`: `{success, output?, error?, metadata?}`.
The never-populated `metadata` record is modelled as an optional string. -/
structure ToolResult where
  success : Bool
  output : Option String := none
  error : Option String := none
  metadata : Option String := none
deriving DecidableEq, Repr

/-- `ApprovalPolicy` from `src/types.ts`. -/
inductive ApprovalPolicy where
  | untrusted
  | onFailure
  | onRequest
  | never
deriving DecidableEq, Repr

/-- Tool categories of `RegisteredTool` in `src/tools/index.ts`. -/
inductive ToolCategory where
  | file
  | shell
  | web
  | mcp
  | memory
  | system
deriving DecidableEq, Repr

/-- `ApprovalRequest` from `src/types.ts`.  The request `type` is kept as a
string literal as in the source. -/
structure ApprovalRequest where
  id : String
  reqType : String
  description : String
  details : Args
  timestamp : Nat
deriving DecidableEq, Repr

/-- Helper for `strIncludes`: does `sub` occur as a contiguous run in the list? -/
def listContains (sub : List Char) : List Char → Bool
  | [] => sub.isEmpty
  | c :: cs => sub.isPrefixOf (c :: cs) || listContains sub cs

/-- JavaScript `String.prototype.includes`: substring test. -/
def strIncludes (s sub : String) : Bool :=
  listContains sub.toList s.toList

/-- `RegisteredTool` from `src/tools/index.ts` (the JSON parameter schema,
irrelevant to execution, is elided).  The executor may throw; a thrown fault
is the `Except.error` case, carrying the error message. -/
structure RegisteredTool where
  name : String
  category : ToolCategory
  description : String
  requiresApproval : Bool
  execute : Args → Except String ToolResult

/-- The tool registry (`toolRegistry : Map<string, RegisteredTool>`),
modelled as a list of tools with distinct names; `getTool` is lookup
by name. -/
abbrev ToolRegistry := List RegisteredTool

/-- `getTool` from `src/tools/index.ts`: look a tool up by name. -/
def getTool (registry : ToolRegistry) (name : String) : Option RegisteredTool :=
  registry.find? fun t => t.name == name

/-- `ToolExecutionContext` from `src/tools/index.ts`.  The sandbox
configuration and workspace directory are not consulted by `executeTool`
and are elided. -/
structure ToolExecutionContext where
  approvalPolicy : ApprovalPolicy
  onApprovalRequest : Option (ApprovalRequest → Bool)

/-- The `ApprovalRequest` literal built inside `executeTool`.  The impure
id (`Date.now()`-`Math.random()`) and timestamp are passed in as `reqId`
and `now`. -/
def mkApprovalRequest (tool : RegisteredTool) (toolName : String)
    (args : Args) (reqId : String) (now : Nat) : ApprovalRequest :=
  { id := reqId
    reqType :=
      if tool.category = ToolCategory.file && strIncludes toolName "write" then
        "file-write"
      else if tool.category = ToolCategory.shell then
        "shell-command"
      else
        "mcp-call"
    description := tool.name ++ ": " ++ args
    details := args
    timestamp := now }

/-- The `try { execute } catch` tail of `executeTool`: run the executor,
converting a thrown fault into a failed result. -/
def runToolExecutor (tool : RegisteredTool) (args : Args) : ToolResult :=
  match tool.execute args with
  | Except.ok result => result
  | Except.error msg =>
      { success := false, error := some ("Tool execution failed: " ++ msg) }

/-- `executeTool` from `src/tools/index.ts`: look up the tool, compute
`needsApproval`, consult the approver when one is configured and approval
is needed, then run the executor (catching faults).  Note the source
guards the approval block by `needsApproval && context.onApprovalRequest`:
with no approver configured the block is skipped and the executor runs. -/
def executeTool (registry : ToolRegistry) (toolName : String) (args : Args)
    (context : ToolExecutionContext) (reqId : String) (now : Nat) : ToolResult :=
  match getTool registry toolName with
  | none => { success := false, error := some ("Unknown tool: " ++ toolName) }
  | some tool =>
    let needsApproval : Bool :=
      tool.requiresApproval
        && !(context.approvalPolicy = ApprovalPolicy.never)
        && (decide (context.approvalPolicy = ApprovalPolicy.untrusted)
            || decide (context.approvalPolicy = ApprovalPolicy.onRequest))
    match needsApproval, context.onApprovalRequest with
    | true, some approver =>
        if approver (mkApprovalRequest tool toolName args reqId now) then
          runToolExecutor tool args
        else
          { success := false, error := some "Operation was not approved by user" }
    | _, _ => runToolExecutor tool args

/-- `SessionStats` from `src/types.ts`; `startTime` is an epoch timestamp. -/
structure SessionStats where
  startTime : Nat
  promptTokens : Nat
  completionTokens : Nat
  totalTokens : Nat
  toolCalls : Nat
  fileReads : Nat
  fileWrites : Nat
  shellCommands : Nat
deriving DecidableEq, Repr

/-- `Agent.createInitialStats`: zeroed counters, fresh start time. -/
def createInitialStats (now : Nat) : SessionStats :=
  { startTime := now, promptTokens := 0, completionTokens := 0, totalTokens := 0
    toolCalls := 0, fileReads := 0, fileWrites := 0, shellCommands := 0 }

/-- `SessionCheckpoint` from `src/types.ts`; the nested `context` record is
flattened into its three fields. -/
structure SessionCheckpoint where
  id : String
  tag : Option String
  timestamp : Nat
  messages : List Message
  provider : String
  model : String
  workingDir : String
  stats : SessionStats
deriving DecidableEq, Repr

/-- `Session` from `src/types.ts`.  `currentCheckpoint` is a JavaScript
number that is decremented, hence modelled as an integer. -/
structure Session where
  id : String
  checkpoints : List SessionCheckpoint
  currentCheckpoint : Int
  stats : SessionStats
deriving DecidableEq, Repr

/-- The fields of `OmniConfig` (`src/types.ts`) that the agent core reads.
`maxCheckpoints?: number` is optional, hence an `Option`. -/
structure OmniConfig where
  provider : String
  model : String
  sandboxMode : String
  approvalPolicy : ApprovalPolicy
  maxCheckpoints : Option Nat
deriving DecidableEq, Repr

/-- The context-file section of the system prompt.  Loading and formatting
context files (`loadContextFiles` / `formatContextForPrompt` in
`src/config/index.ts`) is configuration handling, an out-of-scope external
collaborator; the agent core only splices the resulting text into the
prompt, so the model carries that text directly. -/
abbrev ContextSection := String

/-- `buildSystemPrompt` from `src/agent.ts`.  `platform` stands for the
ambient `process.platform`; `contextSection` for
`formatContextForPrompt(contextFiles)`.  The empty section is falsy in
JavaScript, so the Project Context block is spliced only when nonempty. -/
def buildSystemPrompt (config : OmniConfig) (contextSection : ContextSection)
    (workspaceDir : String) (platform : String) : String :=
  "You are Omni, a powerful AI coding assistant running in the terminal.\n\n"
    ++ "## Capabilities\n- Read, write, and edit files\n- Execute shell commands\n"
    ++ "- Search the web for information\n- Use MCP (Model Context Protocol) tools\n"
    ++ "- Help with coding, debugging, and system tasks\n\n"
    ++ "## Current Environment\n- Working Directory: " ++ workspaceDir
    ++ "\n- Sandbox Mode: " ++ config.sandboxMode
    ++ "\n- Platform: " ++ platform ++ "\n\n"
    ++ "## Guidelines\n1. Be concise and direct in responses\n"
    ++ "2. Use tools to accomplish tasks rather than just explaining\n"
    ++ "3. Always verify file contents before editing\n"
    ++ "4. Ask for clarification when requirements are unclear\n"
    ++ "5. Respect sandbox restrictions\n\n"
    ++ "## Tool Usage\n- Use read_file to examine file contents\n"
    ++ "- Use write_file to create or overwrite files\n"
    ++ "- Use edit_file for targeted changes\n- Use shell for command execution\n"
    ++ "- Use web_search for current information\n\n"
    ++ (if contextSection.isEmpty then ""
        else "\n## Project Context\n" ++ contextSection)
    ++ "\n\nWhen helping with code:\n- Write clean, well-documented code\n"
    ++ "- Follow the project\x27s existing style\n"
    ++ "- Consider edge cases and error handling\n"
    ++ "- Test your changes when possible"

/-- The agent's mutable state (`Agent` class fields in `src/agent.ts`).
The provider instance is opaque to the core and represented by its name;
`platform` is the ambient `process.platform`. -/
structure AgentState where
  config : OmniConfig
  workspaceDir : String
  platform : String
  provider : Option String
  session : Session
  messages : List Message
  contextSection : ContextSection
deriving DecidableEq, Repr

/-- The `Agent` constructor: fresh session, empty conversation, provider
taken from the options when supplied. -/
def mkAgent (config : OmniConfig) (workspaceDir platform : String)
    (optionsProvider : Option String) (sessionId : String) (now : Nat)
    (contextSection : ContextSection) : AgentState :=
  { config := config, workspaceDir := workspaceDir, platform := platform
    provider := optionsProvider
    session :=
      { id := sessionId, checkpoints := [], currentCheckpoint := 0
        stats := createInitialStats now }
    messages := []
    contextSection := contextSection }

/-- `Agent.initialize`: create a provider when none was supplied
(`createdProvider` stands for the impure `createProvider` result) and set
the conversation to the single system message. -/
def initAgent (st : AgentState) (createdProvider : String) : AgentState :=
  { st with
    provider :=
      match st.provider with
      | some p => some p
      | none => some createdProvider
    messages :=
      [{ role := Role.system
         content := buildSystemPrompt st.config st.contextSection
           st.workspaceDir st.platform }] }

/-- `Agent.updateToolStats`: bump `toolCalls` and the category counter
selected by substring tests on the tool name. -/
def updateToolStats (stats : SessionStats) (toolName : String) : SessionStats :=
  let stats := { stats with toolCalls := stats.toolCalls + 1 }
  if strIncludes toolName "read_file" || strIncludes toolName "list_directory" then
    { stats with fileReads := stats.fileReads + 1 }
  else if strIncludes toolName "write_file" || strIncludes toolName "edit_file" then
    { stats with fileWrites := stats.fileWrites + 1 }
  else if toolName == "shell" || strIncludes toolName "process" then
    { stats with shellCommands := stats.shellCommands + 1 }
  else
    stats

/-- One event of `response.fullStream` as consumed by `Agent.chat`
(`tool-result` carries the executor's return value, already a string). -/
inductive StreamPart where
  | textDelta (text : String)
  | toolCall (toolName : String) (args : Args)
  | toolResult (toolName : String) (args : Args) (result : String)
deriving DecidableEq, Repr

/-- Token usage resolved at the end of a stream. -/
structure Usage where
  promptTokens : Nat
  completionTokens : Nat
  totalTokens : Nat
deriving DecidableEq, Repr

/-- One entry of `AgentResponse.toolCalls`. -/
structure ToolCallRecord where
  name : String
  args : Args
  result : ToolResult
deriving DecidableEq, Repr

/-- `AgentResponse` from `src/agent.ts`: content, tool-call records, usage
— and nothing else. -/
structure AgentResponse where
  content : String
  toolCalls : List ToolCallRecord
  usage : Usage
deriving DecidableEq, Repr

/-- Errors `Agent.chat` can throw: the explicit not-initialized error, or
a rethrown connector/stream failure. -/
inductive ChatError where
  | notInitialized
  | connector (message : String)
deriving DecidableEq, Repr

/-- The loop state of `Agent.chat`'s `for await` over the stream. -/
structure ChatAccum where
  fullContent : String
  toolCalls : List ToolCallRecord
  stats : SessionStats
deriving DecidableEq, Repr

/-- The `switch (part.type)` body of `Agent.chat`: text deltas concatenate
into the content, `tool-call` events update stats, and `tool-result`
events are recorded with `success: true` and the stream's result string
as output. -/
def processStreamPart (acc : ChatAccum) : StreamPart → ChatAccum
  | StreamPart.textDelta t => { acc with fullContent := acc.fullContent ++ t }
  | StreamPart.toolCall name _args =>
      { acc with stats := updateToolStats acc.stats name }
  | StreamPart.toolResult name args r =>
      { acc with toolCalls := acc.toolCalls ++
          [{ name := name, args := args
             result := { success := true, output := some r } }] }

/-- The hard-coded `maxSteps: 10` that `Agent.chat` passes to `streamText`. -/
def chatMaxSteps : Nat := 10

/-- `Agent.chat`.  The opaque streaming backend is represented by the list
of stream events consumed plus the outcome of awaiting the usage: a
connector failure at any point is modelled by passing the consumed prefix
as `events` with an error outcome (stream processing touches only local
accumulators and session stats, never the message list, so this covers
every interruption point).  On failure the error is rethrown after the
user message was appended; the assistant message is appended only on
normal completion, after the usage is added into the session stats. -/
def chat (st : AgentState) (userMessage : String) (events : List StreamPart)
    (streamOutcome : Except String Usage) :
    AgentState × Except ChatError AgentResponse :=
  match st.provider with
  | none => (st, Except.error ChatError.notInitialized)
  | some _ =>
    let messages := st.messages ++ [{ role := Role.user, content := userMessage }]
    let acc := events.foldl processStreamPart
      { fullContent := "", toolCalls := [], stats := st.session.stats }
    match streamOutcome with
    | Except.error e =>
        ({ st with
            messages := messages
            session := { st.session with stats := acc.stats } },
         Except.error (ChatError.connector e))
    | Except.ok usage =>
        let stats :=
          { acc.stats with
            promptTokens := acc.stats.promptTokens + usage.promptTokens
            completionTokens := acc.stats.completionTokens + usage.completionTokens
            totalTokens := acc.stats.totalTokens + usage.totalTokens }
        ({ st with
            messages := messages
              ++ [{ role := Role.assistant, content := acc.fullContent }]
            session := { st.session with stats := stats } },
         Except.ok
           { content := acc.fullContent, toolCalls := acc.toolCalls
             usage := usage })

/-- The per-tool `execute` closure built by `Agent.buildToolDefinitions`:
run `executeTool` and map the result to the string handed back to the
model (`result.success ? result.output : "Error: " + result.error`; a
missing field interpolates as the string "undefined" in JavaScript). -/
def toolDefinitionExecute (registry : ToolRegistry)
    (context : ToolExecutionContext) (reqId : String) (now : Nat)
    (toolName : String) (args : Args) : String :=
  let result := executeTool registry toolName args context reqId now
  if result.success then result.output.getD "undefined"
  else "Error: " ++ result.error.getD "undefined"

/-- Modelled from the spec: the tool-step loop of `streamText` in the
external `ai` package (not part of this repository; spec section 4.1 step 5
and section 6).  For each requested tool call, up to `maxSteps`, it emits a
`tool-call` event, invokes the registered executor, and emits a
`tool-result` event carrying the executor's return value; the loop stops
once `maxSteps` tool invocations have been made, and text is streamed as
deltas. -/
def sdkToolLoop (maxSteps : Nat) (exec : String → Args → String)
    (requested : List (String × Args)) (finalText : String) : List StreamPart :=
  (((requested.take maxSteps).map fun r =>
      [StreamPart.toolCall r.1 r.2, StreamPart.toolResult r.1 r.2 (exec r.1 r.2)]).flatten)
    ++ [StreamPart.textDelta finalText]

/-- `config.maxCheckpoints || 10`: the configured maximum, with both the
absent and the falsy `0` value defaulting to 10. -/
def effectiveMaxCheckpoints (config : OmniConfig) : Nat :=
  match config.maxCheckpoints with
  | some n => if n = 0 then 10 else n
  | none => 10

/-- `Agent.saveCheckpoint`: snapshot the conversation and stats, append,
point `currentCheckpoint` at the new last index, then, if the list now
exceeds the configured maximum, `shift()` the oldest out and decrement
`currentCheckpoint`. -/
def saveCheckpoint (st : AgentState) (tag : Option String) (id : String)
    (now : Nat) : AgentState × SessionCheckpoint :=
  let checkpoint : SessionCheckpoint :=
    { id := id, tag := tag, timestamp := now
      messages := st.messages
      provider := st.config.provider, model := st.config.model
      workingDir := st.workspaceDir
      stats := st.session.stats }
  let checkpoints := st.session.checkpoints ++ [checkpoint]
  let current : Int := (checkpoints.length : Int) - 1
  if checkpoints.length > effectiveMaxCheckpoints st.config then
    ({ st with session :=
        { st.session with
            checkpoints := checkpoints.drop 1
            currentCheckpoint := current - 1 } }, checkpoint)
  else
    ({ st with session :=
        { st.session with
            checkpoints := checkpoints
            currentCheckpoint := current } }, checkpoint)

/-- The lookup predicate of `Agent.restoreCheckpoint`: one combined pass
matching id or tag (`c.id === idOrTag || c.tag === idOrTag`). -/
def checkpointMatches (idOrTag : String) (c : SessionCheckpoint) : Bool :=
  c.id == idOrTag || c.tag == some idOrTag

/-- `Agent.restoreCheckpoint`: `find` the first checkpoint whose id or tag
equals the argument; on no match return `false` leaving state untouched;
on a match replace the conversation with a copy of its messages and set
`currentCheckpoint` to `indexOf` of the found checkpoint — the index of
the first match of the same predicate. -/
def restoreCheckpoint (st : AgentState) (idOrTag : String) :
    AgentState × Bool :=
  match st.session.checkpoints.find? (checkpointMatches idOrTag) with
  | none => (st, false)
  | some checkpoint =>
      ({ st with
          messages := checkpoint.messages
          session := { st.session with
            currentCheckpoint :=
              (st.session.checkpoints.findIdx (checkpointMatches idOrTag) : Int) } },
       true)

/-- String form of a role, as interpolated by `${m.role}` in `compact`. -/
def roleString : Role → String
  | Role.system => "system"
  | Role.user => "user"
  | Role.assistant => "assistant"
  | Role.tool => "tool"

/-- One line of `compact`'s summary: `"<role>: <first 200 chars>"`.
Content is always a string in this model, so the `'[complex content]'`
branch for structured content never fires. -/
def summarizeMessage (m : Message) : String :=
  roleString m.role ++ ": " ++ m.content.take 200

/-- `Agent.compact`: no-op at ≤ 4 messages; otherwise keep `messages[0]`
and `slice(-4)`, and summarize `slice(1, -4)` — returning unchanged when
that middle slice is empty (length exactly 5). -/
def compact (st : AgentState) : AgentState :=
  if st.messages.length ≤ 4 then st
  else
    let systemMessage := st.messages.take 1
    let recentMessages := st.messages.drop (st.messages.length - 4)
    let oldMessages := (st.messages.drop 1).take (st.messages.length - 5)
    if oldMessages.length = 0 then st
    else
      let summary := String.intercalate "\n" (oldMessages.map summarizeMessage)
      let summaryMessage : Message :=
        { role := Role.system
          content := "[Previous conversation summary]\n" ++ summary
            ++ "\n[End summary]" }
      { st with messages := systemMessage ++ [summaryMessage] ++ recentMessages }

/-- `Agent.clear`: keep only `messages[0]` and reset the stats.  On the
(unreachable) empty conversation JavaScript would store `[undefined]`;
`take 1` agrees with the source on every nonempty conversation. -/
def clear (st : AgentState) (now : Nat) : AgentState :=
  { st with
    messages := st.messages.take 1
    session := { st.session with stats := createInitialStats now } }

/-- `Agent.refreshContext`: reload the context section (the impure file
read is the argument) and rebuild the system prompt, replacing
`messages[0]` in place when it exists and has role system. -/
def refreshContext (st : AgentState) (contextSection : ContextSection) :
    AgentState :=
  let st := { st with contextSection := contextSection }
  match st.messages with
  | [] => st
  | m0 :: rest =>
    if m0.role = Role.system then
      { st with messages :=
          { role := Role.system
            content := buildSystemPrompt st.config contextSection
              st.workspaceDir st.platform } :: rest }
    else st

/-- One public mutating operation on an initialized agent, with its impure
inputs (stream events, timestamps, fresh ids, reloaded context) made
explicit. -/
inductive AgentOp where
  | chat (userMessage : String) (events : List StreamPart)
      (streamOutcome : Except String Usage)
  | compact
  | clear (now : Nat)
  | save (tag : Option String) (id : String) (now : Nat)
  | restore (idOrTag : String)
  | refresh (contextSection : ContextSection)

/-- Apply one operation to the agent state. -/
def stepAgent (st : AgentState) : AgentOp → AgentState
  | AgentOp.chat u ev out => (chat st u ev out).1
  | AgentOp.compact => compact st
  | AgentOp.clear now => clear st now
  | AgentOp.save tag id now => (saveCheckpoint st tag id now).1
  | AgentOp.restore idOrTag => (restoreCheckpoint st idOrTag).1
  | AgentOp.refresh cs => refreshContext st cs

/-- Apply a sequence of operations. -/
def runAgent (st : AgentState) (ops : List AgentOp) : AgentState :=
  ops.foldl stepAgent st

/-! ## Concrete fixtures used by witnesses and counterexamples -/

/-- The built-in `think` tool registered by `initializeBuiltInTools` in
`src/tools/index.ts` (`requiresApproval: false`); `args.thought` is the
modelled args string. -/
def thinkTool : RegisteredTool :=
  { name := "think", category := ToolCategory.system
    description := "Use this tool to think through complex problems step by step"
    requiresApproval := false
    execute := fun args =>
      Except.ok { success := true, output := some ("Thought: " ++ args) } }

/-- Fixture: a file tool whose name contains "delete", hence registered
with `requiresApproval: true` by `initializeBuiltInTools` (file tools get
approval when their name includes write/edit/delete). -/
def deleteFileTool : RegisteredTool :=
  { name := "delete_file", category := ToolCategory.file
    description := "Delete a file"
    requiresApproval := true
    execute := fun _ => Except.ok { success := true, output := some "deleted" } }

/-- Fixture configuration. -/
def baseConfig : OmniConfig :=
  { provider := "anthropic", model := "claude", sandboxMode := "workspace-write"
    approvalPolicy := ApprovalPolicy.onRequest, maxCheckpoints := none }

/-- Fixture agent state: initialized (provider present), conversation
holding a single system message. -/
def baseState : AgentState :=
  { config := baseConfig, workspaceDir := "/ws", platform := "linux"
    provider := some "anthropic"
    session :=
      { id := "s", checkpoints := [], currentCheckpoint := 0
        stats := createInitialStats 0 }
    messages := [{ role := Role.system, content := "sys" }]
    contextSection := "" }

/-! ## Theorems -/

/-- C10: on an agent whose provider was never configured, `chat` throws
the not-initialized error and the conversation (indeed the whole state)
is untouched — the provider check precedes the user-message append. -/
theorem chat_uninitialized_throws_and_preserves_messages
    (st : AgentState) (userMessage : String) (events : List StreamPart)
    (streamOutcome : Except String Usage)
    (hprov : st.provider = none) :
    chat st userMessage events streamOutcome
      = (st, Except.error ChatError.notInitialized) := by
  unfold chat
  rw [hprov]

/-- Witness for C10 at a concrete uninitialized agent. -/
theorem chat_uninitialized_throws_and_preserves_messages_witness :
    chat { baseState with provider := none } "hi" [] (Except.error "boom")
      = ({ baseState with provider := none },
         Except.error ChatError.notInitialized) :=
  chat_uninitialized_throws_and_preserves_messages
    { baseState with provider := none } "hi" [] (Except.error "boom") rfl

/-- C3: on a connector/stream failure the `chat` call rethrows the failure
and the conversation is exactly the prior messages plus the user message
appended at the start of the call — no partial assistant message. -/
theorem chat_connector_failure_preserves_conversation
    (st : AgentState) (p : String) (userMessage : String)
    (events : List StreamPart) (e : String)
    (hprov : st.provider = some p) :
    (chat st userMessage events (Except.error e)).1.messages
        = st.messages ++ [{ role := Role.user, content := userMessage }]
    ∧ (chat st userMessage events (Except.error e)).2
        = Except.error (ChatError.connector e) := by
  unfold chat
  rw [hprov]
  exact ⟨rfl, rfl⟩

/-- Witness for C3: a concrete failing stream after two consumed events. -/
theorem chat_connector_failure_preserves_conversation_witness :
    (chat baseState "hello"
        [StreamPart.textDelta "par", StreamPart.toolCall "think" "x"]
        (Except.error "ECONNRESET")).1.messages
      = [{ role := Role.system, content := "sys" },
         { role := Role.user, content := "hello" }]
    ∧ (chat baseState "hello"
        [StreamPart.textDelta "par", StreamPart.toolCall "think" "x"]
        (Except.error "ECONNRESET")).2
      = Except.error (ChatError.connector "ECONNRESET") :=
  chat_connector_failure_preserves_conversation baseState "anthropic" "hello"
    [StreamPart.textDelta "par", StreamPart.toolCall "think" "x"]
    "ECONNRESET" rfl

/-- C9: when the tool does not require approval (any policy) or the policy
is `never` (any tool), `executeTool` runs the executor directly; the
result is the same for every configured approver — including none and the
always-deny approver — so the approver is never consulted. -/
theorem executeTool_auto_approve
    (registry : ToolRegistry) (toolName : String) (args : Args)
    (policy : ApprovalPolicy) (approver : Option (ApprovalRequest → Bool))
    (reqId : String) (now : Nat) (tool : RegisteredTool)
    (hfind : getTool registry toolName = some tool)
    (hcase : tool.requiresApproval = false ∨ policy = ApprovalPolicy.never) :
    executeTool registry toolName args
      { approvalPolicy := policy, onApprovalRequest := approver } reqId now
      = runToolExecutor tool args := by
  unfold executeTool
  rw [hfind]
  rcases hcase with h | h <;> cases approver <;> simp [h]

/-- Witness for C9: the `think` tool under `on-request` with an
always-denying approver executes anyway (no prompt can have fired, since
even the always-deny approver does not block it). -/
theorem executeTool_auto_approve_witness :
    executeTool [thinkTool] "think" "plan"
      { approvalPolicy := ApprovalPolicy.onRequest
        onApprovalRequest := some fun _ => false } "r1" 5
      = runToolExecutor thinkTool "plan" :=
  executeTool_auto_approve [thinkTool] "think" "plan"
    ApprovalPolicy.onRequest (some fun _ => false) "r1" 5 thinkTool rfl
    (Or.inl rfl)

/-- C1 counterexample: a `requiresApproval` tool under policy `untrusted`
with NO approver configured is NOT denied — the approval block is skipped
and the executor runs, returning its successful result. -/
theorem executeTool_no_approver_executes_counterexample :
    executeTool [deleteFileTool] "delete_file" "x.txt"
      { approvalPolicy := ApprovalPolicy.untrusted, onApprovalRequest := none }
      "r1" 5
      = { success := true, output := some "deleted" } := by
  decide

/-- C1 (amended): for a `requiresApproval` tool under policy `untrusted`
or `on-request`, with an approver configured the gate consults it and a
denial yields the failed "not approved" result without running the
executor (the denial branch is the same for every executor); with no
approver configured the approval check is skipped and the executor runs. -/
theorem executeTool_approval_gate
    (registry : ToolRegistry) (toolName : String) (args : Args)
    (policy : ApprovalPolicy) (reqId : String) (now : Nat)
    (tool : RegisteredTool)
    (hfind : getTool registry toolName = some tool)
    (hreq : tool.requiresApproval = true)
    (hpol : policy = ApprovalPolicy.untrusted ∨ policy = ApprovalPolicy.onRequest) :
    (∀ f : ApprovalRequest → Bool,
      executeTool registry toolName args
          { approvalPolicy := policy, onApprovalRequest := some f } reqId now
        = if f (mkApprovalRequest tool toolName args reqId now) then
            runToolExecutor tool args
          else
            { success := false, error := some "Operation was not approved by user" })
    ∧ executeTool registry toolName args
        { approvalPolicy := policy, onApprovalRequest := none } reqId now
      = runToolExecutor tool args := by
  constructor
  · intro f
    unfold executeTool
    rw [hfind]
    rcases hpol with h | h <;> simp [h, hreq]
  · unfold executeTool
    rw [hfind]
    rcases hpol with h | h <;> simp [h, hreq]

/-- Witness for C1 (amended): the `delete_file` fixture under `untrusted`
with an always-deny approver is denied; with no approver it executes. -/
theorem executeTool_approval_gate_witness :
    ((∀ f : ApprovalRequest → Bool,
      executeTool [deleteFileTool] "delete_file" "x.txt"
          { approvalPolicy := ApprovalPolicy.untrusted
            onApprovalRequest := some f } "r1" 5
        = if f (mkApprovalRequest deleteFileTool "delete_file" "x.txt" "r1" 5) then
            runToolExecutor deleteFileTool "x.txt"
          else
            { success := false, error := some "Operation was not approved by user" })
    ∧ executeTool [deleteFileTool] "delete_file" "x.txt"
        { approvalPolicy := ApprovalPolicy.untrusted, onApprovalRequest := none }
        "r1" 5
      = runToolExecutor deleteFileTool "x.txt") :=
  executeTool_approval_gate [deleteFileTool] "delete_file" "x.txt"
    ApprovalPolicy.untrusted "r1" 5 deleteFileTool rfl rfl (Or.inl rfl)

/-- Helper: folding the chat loop over the tool-call/tool-result event
pairs the step loop emits accumulates one `success: true` record per pair
and leaves the content untouched. -/
theorem sdk_pairs_foldl (exec : String → Args → String) :
    ∀ (reqs : List (String × Args)) (acc : ChatAccum),
    ((reqs.map fun r =>
        [StreamPart.toolCall r.1 r.2,
         StreamPart.toolResult r.1 r.2 (exec r.1 r.2)]).flatten).foldl
      processStreamPart acc
    = { fullContent := acc.fullContent
        toolCalls := acc.toolCalls ++ reqs.map fun r =>
          { name := r.1, args := r.2
            result := { success := true, output := some (exec r.1 r.2) } }
        stats := reqs.foldl (fun s r => updateToolStats s r.1) acc.stats }
  | [], acc => by simp
  | r :: rest, acc => by
    simp only [List.map_cons, List.flatten_cons, List.foldl_append, List.foldl_cons,
      List.foldl_nil]
    rw [sdk_pairs_foldl exec rest]
    simp [processStreamPart]

/-- Helper: the chat loop folded over a full step-loop event stream. -/
theorem sdkToolLoop_foldl (maxSteps : Nat) (exec : String → Args → String)
    (reqs : List (String × Args)) (finalText : String) (acc : ChatAccum) :
    (sdkToolLoop maxSteps exec reqs finalText).foldl processStreamPart acc
      = { fullContent := acc.fullContent ++ finalText
          toolCalls := acc.toolCalls ++ (reqs.take maxSteps).map fun r =>
            { name := r.1, args := r.2
              result := { success := true, output := some (exec r.1 r.2) } }
          stats := (reqs.take maxSteps).foldl
            (fun s r => updateToolStats s r.1) acc.stats } := by
  unfold sdkToolLoop
  rw [List.foldl_append, sdk_pairs_foldl exec (reqs.take maxSteps) acc]
  simp [processStreamPart]

/-- Helper: the outcome component of a successful `chat`, in terms of the
folded stream accumulator. -/
theorem chat_ok (st : AgentState) (p userMessage : String)
    (events : List StreamPart) (usage : Usage)
    (hprov : st.provider = some p) :
    (chat st userMessage events (Except.ok usage)).2
      = Except.ok
          { content :=
              (events.foldl processStreamPart
                { fullContent := "", toolCalls := [], stats := st.session.stats }).fullContent
            toolCalls :=
              (events.foldl processStreamPart
                { fullContent := "", toolCalls := [], stats := st.session.stats }).toolCalls
            usage := usage } := by
  unfold chat
  rw [hprov]

/-- C2 (amended): `chat` hands the hard-coded `maxSteps = 10` to the
connector's step loop, which executes exactly `min requested 10` tool
invocations; the content and usage accumulated so far are returned
normally.  No step-limit flag exists: the response is exactly content,
tool-call records and usage. -/
theorem chat_step_bound (st : AgentState) (p userMessage : String)
    (exec : String → Args → String) (requested : List (String × Args))
    (finalText : String) (usage : Usage)
    (hprov : st.provider = some p) :
    (chat st userMessage (sdkToolLoop chatMaxSteps exec requested finalText)
        (Except.ok usage)).2
      = Except.ok
          { content := finalText
            toolCalls := (requested.take chatMaxSteps).map fun r =>
              { name := r.1, args := r.2
                result := { success := true, output := some (exec r.1 r.2) } }
            usage := usage }
    ∧ ((requested.take chatMaxSteps).map fun r =>
        ({ name := r.1, args := r.2
           result := { success := true, output := some (exec r.1 r.2) } }
          : ToolCallRecord)).length
      = min requested.length chatMaxSteps := by
  refine ⟨?_, by simp [Nat.min_comm]⟩
  rw [chat_ok st p userMessage _ usage hprov, sdkToolLoop_foldl]
  simp

/-- Fixture: fifteen sequential `think` tool calls, as in the spec's step
bound scenario. -/
def c2Requests : List (String × Args) :=
  (List.range 15).map fun i => ("think", toString i)

/-- Fixture: the executor wrapper over the think-tool registry, approvals
never needed. -/
def c2Exec : String → Args → String :=
  toolDefinitionExecute [thinkTool]
    { approvalPolicy := ApprovalPolicy.onRequest, onApprovalRequest := none }
    "r" 0

/-- Witness for C2 (amended): fifteen requested calls with the bound of 10
yield exactly ten recorded tool invocations and a normal response. -/
theorem chat_step_bound_witness :
    (chat baseState "go" (sdkToolLoop chatMaxSteps c2Exec c2Requests "done")
        (Except.ok { promptTokens := 1, completionTokens := 2, totalTokens := 3 })).2
      = Except.ok
          { content := "done"
            toolCalls := (c2Requests.take chatMaxSteps).map fun r =>
              { name := r.1, args := r.2
                result := { success := true, output := some (c2Exec r.1 r.2) } }
            usage := { promptTokens := 1, completionTokens := 2, totalTokens := 3 } }
    ∧ ((c2Requests.take chatMaxSteps).map fun r =>
        ({ name := r.1, args := r.2
           result := { success := true, output := some (c2Exec r.1 r.2) } }
          : ToolCallRecord)).length
      = min c2Requests.length chatMaxSteps :=
  chat_step_bound baseState "anthropic" "go" c2Exec c2Requests "done"
    { promptTokens := 1, completionTokens := 2, totalTokens := 3 } rfl

/-- C2 counterexample to the step-limited flag: the limit-hitting run of
fifteen requested calls is indistinguishable from a run that requests only
the first ten and never hits the bound — states and responses are equal,
so nothing in the response flags the step limit. -/
theorem chat_step_limit_unflagged_counterexample :
    c2Requests.length = 15
    ∧ chat baseState "go" (sdkToolLoop chatMaxSteps c2Exec c2Requests "done")
        (Except.ok { promptTokens := 1, completionTokens := 2, totalTokens := 3 })
      = chat baseState "go"
          (sdkToolLoop chatMaxSteps c2Exec (c2Requests.take chatMaxSteps) "done")
          (Except.ok { promptTokens := 1, completionTokens := 2, totalTokens := 3 }) := by
  exact ⟨by rfl, by simp [sdkToolLoop, List.take_take]⟩

/-- Fixture: the execution context of the always-denying approver under
`on-request`. -/
def c4Context : ToolExecutionContext :=
  { approvalPolicy := ApprovalPolicy.onRequest
    onApprovalRequest := some fun _ => false }

/-- Fixture: the event stream of one denied `delete_file` call. -/
def c4Events : List StreamPart :=
  sdkToolLoop chatMaxSteps
    (toolDefinitionExecute [deleteFileTool] c4Context "r" 0)
    [("delete_file", "x.txt")] "ok"

/-- Helper: an always-denying approver makes `executeTool` return the
failed "not approved" result for a `requiresApproval` tool under
`on-request`. -/
theorem executeTool_denied (registry : ToolRegistry) (toolName : String)
    (args : Args) (f : ApprovalRequest → Bool) (reqId : String) (now : Nat)
    (tool : RegisteredTool)
    (hfind : getTool registry toolName = some tool)
    (hreq : tool.requiresApproval = true)
    (hf : ∀ r, f r = false) :
    executeTool registry toolName args
        { approvalPolicy := ApprovalPolicy.onRequest, onApprovalRequest := some f }
        reqId now
      = { success := false, error := some "Operation was not approved by user" } := by
  unfold executeTool
  rw [hfind]
  simp [hreq, hf]

/-- C4 (amended): with a `requiresApproval` tool under `on-request` and an
always-denying approver, `executeTool` returns `success=false` with the
"not approved" error; the `chat` call still resolves normally, but the
tool-result it records has `success=true`, the denial surfacing only as
the "Error: Operation was not approved by user" output string (the chat
loop marks every streamed tool result successful). -/
theorem chat_denied_approval (st : AgentState) (p : String)
    (registry : ToolRegistry) (toolName : String) (args : Args)
    (tool : RegisteredTool) (f : ApprovalRequest → Bool)
    (userMessage finalText reqId : String) (now : Nat) (usage : Usage)
    (hprov : st.provider = some p)
    (hfind : getTool registry toolName = some tool)
    (hreq : tool.requiresApproval = true)
    (hf : ∀ r, f r = false) :
    executeTool registry toolName args
        { approvalPolicy := ApprovalPolicy.onRequest, onApprovalRequest := some f }
        reqId now
      = { success := false, error := some "Operation was not approved by user" }
    ∧ (chat st userMessage
        (sdkToolLoop chatMaxSteps
          (toolDefinitionExecute registry
            { approvalPolicy := ApprovalPolicy.onRequest, onApprovalRequest := some f }
            reqId now)
          [(toolName, args)] finalText)
        (Except.ok usage)).2
      = Except.ok
          { content := finalText
            toolCalls :=
              [{ name := toolName
                 args := args
                 result :=
                   { success := true
                     output := some "Error: Operation was not approved by user" } }]
            usage := usage } := by
  have hexec := executeTool_denied registry toolName args f reqId now tool hfind hreq hf
  refine ⟨hexec, ?_⟩
  rw [chat_ok st p userMessage _ usage hprov, sdkToolLoop_foldl]
  simp [toolDefinitionExecute, hexec, chatMaxSteps]

/-- Witness for C4 (amended), at the concrete denied `delete_file` call. -/
theorem chat_denied_approval_witness :
    executeTool [deleteFileTool] "delete_file" "x.txt" c4Context "r" 0
      = { success := false, error := some "Operation was not approved by user" }
    ∧ (chat baseState "delete file x"
        (sdkToolLoop chatMaxSteps
          (toolDefinitionExecute [deleteFileTool] c4Context "r" 0)
          [("delete_file", "x.txt")] "ok")
        (Except.ok { promptTokens := 1, completionTokens := 2, totalTokens := 3 })).2
      = Except.ok
          { content := "ok"
            toolCalls :=
              [{ name := "delete_file"
                 args := "x.txt"
                 result :=
                   { success := true
                     output := some "Error: Operation was not approved by user" } }]
            usage := { promptTokens := 1, completionTokens := 2, totalTokens := 3 } } :=
  chat_denied_approval baseState "anthropic" [deleteFileTool] "delete_file"
    "x.txt" deleteFileTool (fun _ => false) "delete file x" "ok" "r" 0
    { promptTokens := 1, completionTokens := 2, totalTokens := 3 }
    rfl rfl rfl (fun _ => rfl)

/-- C4 counterexample: in the denied-approval scenario the result recorded
in the response has `success = true` — not `success = false` as claimed —
while `executeTool` itself reported the failure. -/
theorem chat_denied_approval_recorded_success_counterexample :
    (executeTool [deleteFileTool] "delete_file" "x.txt" c4Context "r" 0).success
      = false
    ∧ ((chat baseState "delete file x" c4Events
          (Except.ok { promptTokens := 1, completionTokens := 2, totalTokens := 3 })).2.map
        fun r => r.toolCalls.map fun t => t.result.success)
      = Except.ok [true] := by
  exact ⟨rfl, rfl⟩

/-! ## The system-message invariant (C5) -/

/-- The conversation is nonempty and its first message has role system. -/
def headIsSystem (msgs : List Message) : Prop :=
  msgs.head?.map Message.role = some Role.system

/-- Inductive invariant: the live conversation and the conversation stored
in every checkpoint start with a system message. -/
def AgentInv (st : AgentState) : Prop :=
  headIsSystem st.messages
  ∧ ∀ c ∈ st.session.checkpoints, headIsSystem c.messages

theorem headIsSystem_append (msgs l : List Message) (h : headIsSystem msgs) :
    headIsSystem (msgs ++ l) := by
  unfold headIsSystem at *
  cases msgs with
  | nil => simp at h
  | cons m rest => simpa using h

theorem headIsSystem_take_one (msgs : List Message) (h : headIsSystem msgs) :
    headIsSystem (msgs.take 1) := by
  unfold headIsSystem at *
  cases msgs with
  | nil => simp at h
  | cons m rest => simpa using h

theorem chat_inv (st : AgentState) (u : String) (ev : List StreamPart)
    (out : Except String Usage) (h : AgentInv st) :
    AgentInv (chat st u ev out).1 := by
  obtain ⟨h1, h2⟩ := h
  unfold chat
  cases st.provider with
  | none => exact ⟨h1, h2⟩
  | some p =>
    cases out with
    | error e => exact ⟨headIsSystem_append _ _ h1, h2⟩
    | ok usage =>
        refine ⟨?_, h2⟩
        exact headIsSystem_append _ _ (headIsSystem_append _ _ h1)

theorem compact_inv (st : AgentState) (h : AgentInv st) :
    AgentInv (compact st) := by
  obtain ⟨h1, h2⟩ := h
  unfold compact
  by_cases hlen : st.messages.length ≤ 4
  · simp only [hlen, if_true]
    exact ⟨h1, h2⟩
  · simp only [hlen, if_false]
    by_cases hold : ((st.messages.drop 1).take (st.messages.length - 5)).length = 0
    · simp only [hold, if_true]
      exact ⟨h1, h2⟩
    · simp only [hold, if_false]
      exact ⟨headIsSystem_append _ _
        (headIsSystem_append _ _ (headIsSystem_take_one _ h1)), h2⟩

theorem clear_inv (st : AgentState) (now : Nat) (h : AgentInv st) :
    AgentInv (clear st now) := by
  obtain ⟨h1, h2⟩ := h
  exact ⟨headIsSystem_take_one _ h1, h2⟩

/-- Helper: the checkpoint returned by `saveCheckpoint` is the snapshot
of the current conversation, stats and context. -/
theorem saveCheckpoint_snd (st : AgentState) (tag : Option String)
    (id : String) (now : Nat) :
    (saveCheckpoint st tag id now).2
      = { id := id, tag := tag, timestamp := now, messages := st.messages
          provider := st.config.provider, model := st.config.model
          workingDir := st.workspaceDir, stats := st.session.stats } := by
  unfold saveCheckpoint
  dsimp only
  split <;> rfl

/-- Helper: `saveCheckpoint` leaves the conversation untouched. -/
theorem saveCheckpoint_fst_messages (st : AgentState) (tag : Option String)
    (id : String) (now : Nat) :
    (saveCheckpoint st tag id now).1.messages = st.messages := by
  unfold saveCheckpoint
  dsimp only
  split <;> rfl

/-- Helper: `saveCheckpoint` leaves the configuration untouched. -/
theorem saveCheckpoint_fst_config (st : AgentState) (tag : Option String)
    (id : String) (now : Nat) :
    (saveCheckpoint st tag id now).1.config = st.config := by
  unfold saveCheckpoint
  dsimp only
  split <;> rfl

/-- Helper: after a save, the checkpoint list is the old list plus the new
snapshot, with the head dropped if it overflowed the bound. -/
theorem saveCheckpoint_fst_checkpoints (st : AgentState) (tag : Option String)
    (id : String) (now : Nat) :
    (saveCheckpoint st tag id now).1.session.checkpoints
        = st.session.checkpoints ++ [(saveCheckpoint st tag id now).2]
    ∨ (saveCheckpoint st tag id now).1.session.checkpoints
        = (st.session.checkpoints ++ [(saveCheckpoint st tag id now).2]).drop 1 := by
  rw [saveCheckpoint_snd]
  unfold saveCheckpoint
  dsimp only
  split
  · right; rfl
  · left; rfl

theorem saveCheckpoint_inv (st : AgentState) (tag : Option String)
    (id : String) (now : Nat) (h : AgentInv st) :
    AgentInv (saveCheckpoint st tag id now).1 := by
  obtain ⟨h1, h2⟩ := h
  refine ⟨by rw [saveCheckpoint_fst_messages]; exact h1, fun c hc => ?_⟩
  have hsnd := saveCheckpoint_snd st tag id now
  have hof : c ∈ st.session.checkpoints ++ [(saveCheckpoint st tag id now).2] := by
    rcases saveCheckpoint_fst_checkpoints st tag id now with he | he <;> rw [he] at hc
    · exact hc
    · exact List.mem_of_mem_drop hc
  rcases List.mem_append.mp hof with hin | hnew
  · exact h2 c hin
  · rcases List.mem_singleton.mp hnew with rfl
    rw [hsnd]
    exact h1

theorem restoreCheckpoint_inv (st : AgentState) (idOrTag : String)
    (h : AgentInv st) : AgentInv (restoreCheckpoint st idOrTag).1 := by
  obtain ⟨h1, h2⟩ := h
  unfold restoreCheckpoint
  cases hfind : st.session.checkpoints.find? (checkpointMatches idOrTag) with
  | none => exact ⟨h1, h2⟩
  | some c =>
      exact ⟨h2 c (List.mem_of_find?_eq_some hfind), h2⟩

theorem refreshContext_inv (st : AgentState) (cs : ContextSection)
    (h : AgentInv st) : AgentInv (refreshContext st cs) := by
  obtain ⟨h1, h2⟩ := h
  unfold refreshContext
  cases hm : st.messages with
  | nil => exact ⟨by simpa [hm] using h1, h2⟩
  | cons m0 rest =>
      by_cases hrole : m0.role = Role.system
      · simp only [hrole, if_true]
        exact ⟨by simp [headIsSystem], h2⟩
      · simp only [hrole, if_false]
        exact ⟨by simpa [hm] using h1, h2⟩

theorem stepAgent_inv (st : AgentState) (op : AgentOp) (h : AgentInv st) :
    AgentInv (stepAgent st op) := by
  cases op with
  | chat u ev out => exact chat_inv st u ev out h
  | compact => exact compact_inv st h
  | clear now => exact clear_inv st now h
  | save tag id now => exact saveCheckpoint_inv st tag id now h
  | restore idOrTag => exact restoreCheckpoint_inv st idOrTag h
  | refresh cs => exact refreshContext_inv st cs h

theorem runAgent_inv (ops : List AgentOp) :
    ∀ st : AgentState, AgentInv st → AgentInv (runAgent st ops) := by
  induction ops with
  | nil => exact fun st h => h
  | cons op rest ih =>
      intro st h
      exact ih (stepAgent st op) (stepAgent_inv st op h)

/-- C5: from a freshly constructed and initialized agent, after any
sequence of chat, compact, clear, save, restore and refresh-context
operations, the conversation is nonempty and its first message has role
system (set at initialization, replaced — never removed — by
`refreshContext`). -/
theorem conversation_first_message_system
    (config : OmniConfig) (workspaceDir platform : String)
    (optionsProvider : Option String) (sessionId : String) (now : Nat)
    (contextSection : ContextSection) (createdProvider : String)
    (ops : List AgentOp) :
    (runAgent
        (initAgent
          (mkAgent config workspaceDir platform optionsProvider sessionId now
            contextSection)
          createdProvider)
        ops).messages.head?.map Message.role
      = some Role.system := by
  have h0 : AgentInv
      (initAgent
        (mkAgent config workspaceDir platform optionsProvider sessionId now
          contextSection)
        createdProvider) := by
    constructor
    · rfl
    · intro c hc
      simp [initAgent, mkAgent] at hc
  exact (runAgent_inv ops _ h0).1

/-! ## Checkpoint bound and retrieval (C6) -/

/-- Apply a sequence of `saveCheckpoint` calls, each given its tag, fresh
id and timestamp. -/
def runSaves (st : AgentState) (saves : List (Option String × String × Nat)) :
    AgentState :=
  saves.foldl (fun s x => (saveCheckpoint s x.1 x.2.1 x.2.2).1) st

/-- Helper: the effective checkpoint maximum is at least 1 (0 is falsy and
falls back to the default 10). -/
theorem effectiveMaxCheckpoints_pos (config : OmniConfig) :
    1 ≤ effectiveMaxCheckpoints config := by
  unfold effectiveMaxCheckpoints
  cases config.maxCheckpoints with
  | none => decide
  | some n =>
      by_cases h : n = 0
      · simp [h]
      · simp [h]; omega

/-- Helper: one save keeps the checkpoint list within the bound. -/
theorem saveCheckpoint_length_le (st : AgentState) (tag : Option String)
    (id : String) (now : Nat)
    (h : st.session.checkpoints.length ≤ effectiveMaxCheckpoints st.config) :
    (saveCheckpoint st tag id now).1.session.checkpoints.length
      ≤ effectiveMaxCheckpoints st.config := by
  unfold saveCheckpoint
  dsimp only
  split
  next hgt => simp only [List.length_drop, List.length_append, List.length_cons,
    List.length_nil]; omega
  next hle =>
    simp only [List.length_append, List.length_cons, List.length_nil]
    simp only [gt_iff_lt, not_lt, List.length_append, List.length_cons,
      List.length_nil] at hle
    omega

/-- Helper: the bound is preserved along any sequence of saves. -/
theorem runSaves_bound (saves : List (Option String × String × Nat)) :
    ∀ st : AgentState,
      st.session.checkpoints.length ≤ effectiveMaxCheckpoints st.config →
      (runSaves st saves).session.checkpoints.length
        ≤ effectiveMaxCheckpoints st.config := by
  induction saves with
  | nil => exact fun st h => h
  | cons x rest ih =>
      intro st h
      have hstep := saveCheckpoint_length_le st x.1 x.2.1 x.2.2 h
      have hcfg := saveCheckpoint_fst_config st x.1 x.2.1 x.2.2
      have hrec := ih (saveCheckpoint st x.1 x.2.1 x.2.2).1 (by rw [hcfg]; exact hstep)
      rw [hcfg] at hrec
      simpa [runSaves] using hrec

/-- Helper: like `saveCheckpoint_fst_checkpoints`, remembering which side
of the bound the push landed on. -/
theorem saveCheckpoint_fst_checkpoints_cases (st : AgentState)
    (tag : Option String) (id : String) (now : Nat) :
    ((saveCheckpoint st tag id now).1.session.checkpoints
        = st.session.checkpoints ++ [(saveCheckpoint st tag id now).2]
      ∧ st.session.checkpoints.length + 1 ≤ effectiveMaxCheckpoints st.config)
    ∨ ((saveCheckpoint st tag id now).1.session.checkpoints
        = (st.session.checkpoints ++ [(saveCheckpoint st tag id now).2]).drop 1
      ∧ effectiveMaxCheckpoints st.config < st.session.checkpoints.length + 1) := by
  rw [saveCheckpoint_snd]
  unfold saveCheckpoint
  dsimp only
  split
  next hgt =>
    right
    refine ⟨rfl, ?_⟩
    simpa using hgt
  next hle =>
    left
    refine ⟨rfl, ?_⟩
    simp only [gt_iff_lt, not_lt, List.length_append, List.length_cons,
      List.length_nil] at hle
    omega

/-- Helper: the checkpoint just saved is in the stored list. -/
theorem saveCheckpoint_mem (st : AgentState) (tag : Option String)
    (id : String) (now : Nat) :
    (saveCheckpoint st tag id now).2
      ∈ (saveCheckpoint st tag id now).1.session.checkpoints := by
  rcases saveCheckpoint_fst_checkpoints_cases st tag id now with ⟨he, _⟩ | ⟨he, hgt⟩ <;>
    rw [he]
  · exact List.mem_append_right _ (List.mem_singleton.mpr rfl)
  · have hpos : 1 ≤ st.session.checkpoints.length := by
      have := effectiveMaxCheckpoints_pos st.config
      omega
    cases hl : st.session.checkpoints with
    | nil => rw [hl] at hpos; simp at hpos
    | cons c rest =>
        simp

/-- Helper: immediately after a save, restoring by the fresh id succeeds. -/
theorem restore_after_save (st : AgentState) (tag : Option String)
    (id : String) (now : Nat) :
    (restoreCheckpoint (saveCheckpoint st tag id now).1 id).2 = true := by
  have hmem := saveCheckpoint_mem st tag id now
  have hmatch : checkpointMatches id (saveCheckpoint st tag id now).2 = true := by
    rw [saveCheckpoint_snd]
    simp [checkpointMatches]
  have hsome : ((saveCheckpoint st tag id now).1.session.checkpoints.find?
      (checkpointMatches id)).isSome :=
    List.find?_isSome.mpr ⟨_, hmem, hmatch⟩
  unfold restoreCheckpoint
  cases hfind : (saveCheckpoint st tag id now).1.session.checkpoints.find?
      (checkpointMatches id) with
  | none => rw [hfind] at hsome; simp at hsome
  | some c => rfl

/-- Helper: a save from a full list evicts the head and decrements the
just-set current index by one. -/
theorem saveCheckpoint_evicts (st : AgentState) (tag : Option String)
    (id : String) (now : Nat)
    (hfull : st.session.checkpoints.length = effectiveMaxCheckpoints st.config) :
    (saveCheckpoint st tag id now).1.session.checkpoints
        = st.session.checkpoints.tail ++ [(saveCheckpoint st tag id now).2]
    ∧ (saveCheckpoint st tag id now).1.session.currentCheckpoint
        = (st.session.checkpoints.length : Int) - 1 := by
  have hpos := effectiveMaxCheckpoints_pos st.config
  have h1le : 1 ≤ st.session.checkpoints.length := by omega
  rw [saveCheckpoint_snd]
  constructor
  · unfold saveCheckpoint
    dsimp only
    split
    next hgt =>
      rw [List.drop_append_of_le_length h1le, List.drop_one]
    next hle =>
      exfalso
      simp only [gt_iff_lt, not_lt, List.length_append, List.length_cons,
        List.length_nil] at hle
      omega
  · unfold saveCheckpoint
    dsimp only
    split
    next hgt =>
      simp only [List.length_append, List.length_cons, List.length_nil]
      push_cast
      ring
    next hle =>
      exfalso
      simp only [gt_iff_lt, not_lt, List.length_append, List.length_cons,
        List.length_nil] at hle
      omega

/-- C6: from a fresh agent, after any sequence of `saveCheckpoint` calls
the checkpoint list never exceeds the configured maximum; restoring by the
id of a checkpoint immediately after saving it succeeds from any state;
and a save from a full list evicts the oldest checkpoint (index 0) and
leaves `currentCheckpoint` decremented by one from the just-set last
index. -/
theorem checkpoint_bound_and_retrieval
    (config : OmniConfig) (workspaceDir platform : String)
    (optionsProvider : Option String) (sessionId : String) (now0 : Nat)
    (contextSection : ContextSection) (createdProvider : String)
    (saves : List (Option String × String × Nat))
    (tag : Option String) (id : String) (now : Nat) :
    (runSaves
        (initAgent
          (mkAgent config workspaceDir platform optionsProvider sessionId now0
            contextSection)
          createdProvider)
        saves).session.checkpoints.length
      ≤ effectiveMaxCheckpoints config
    ∧ (∀ st : AgentState,
        (restoreCheckpoint (saveCheckpoint st tag id now).1 id).2 = true)
    ∧ (∀ st : AgentState,
        st.session.checkpoints.length = effectiveMaxCheckpoints st.config →
        (saveCheckpoint st tag id now).1.session.checkpoints
            = st.session.checkpoints.tail ++ [(saveCheckpoint st tag id now).2]
        ∧ (saveCheckpoint st tag id now).1.session.currentCheckpoint
            = (st.session.checkpoints.length : Int) - 1) := by
  refine ⟨?_, fun st => restore_after_save st tag id now,
    fun st h => saveCheckpoint_evicts st tag id now h⟩
  exact runSaves_bound saves _ (Nat.zero_le _)

/-- Fixture configuration with `maxCheckpoints = 2`. -/
def c6Config : OmniConfig := { baseConfig with maxCheckpoints := some 2 }

/-- Fixture agent freshly initialized under `c6Config`. -/
def c6Start : AgentState :=
  initAgent (mkAgent c6Config "/ws" "linux" (some "anthropic") "s" 0 "")
    "anthropic"

/-- Fixture: two saves, filling the list to its maximum of 2. -/
def c6Saves : List (Option String × String × Nat) :=
  [(none, "id1", 1), (none, "id2", 2)]

/-- Witness for C6: with maximum 2 and a full list of two checkpoints, a
third save keeps the length within bound, is retrievable by its id, evicts
the oldest checkpoint and decrements the index. -/
theorem checkpoint_bound_and_retrieval_witness :
    (runSaves c6Start c6Saves).session.checkpoints.length
      ≤ effectiveMaxCheckpoints c6Config
    ∧ (restoreCheckpoint
        (saveCheckpoint (runSaves c6Start c6Saves) (some "t") "id3" 3).1
        "id3").2 = true
    ∧ ((saveCheckpoint (runSaves c6Start c6Saves) (some "t") "id3" 3).1.session.checkpoints
          = (runSaves c6Start c6Saves).session.checkpoints.tail
            ++ [(saveCheckpoint (runSaves c6Start c6Saves) (some "t") "id3" 3).2]
       ∧ (saveCheckpoint (runSaves c6Start c6Saves) (some "t") "id3"
            3).1.session.currentCheckpoint
          = ((runSaves c6Start c6Saves).session.checkpoints.length : Int) - 1) :=
  have h := checkpoint_bound_and_retrieval c6Config "/ws" "linux"
    (some "anthropic") "s" 0 "" "anthropic" c6Saves (some "t") "id3" 3
  ⟨h.1, h.2.1 (runSaves c6Start c6Saves),
    h.2.2 (runSaves c6Start c6Saves) (by rfl)⟩

/-! ## Checkpoint restore lookup (C7) -/

/-- The lookup rule the specification words describe — exact match by id
first, then by tag — stated as its own definition for comparison with the
source’s single combined `find` pass. -/
def lookupIdFirst (checkpoints : List SessionCheckpoint) (idOrTag : String) :
    Option SessionCheckpoint :=
  match checkpoints.find? (fun c => c.id == idOrTag) with
  | some c => some c
  | none => checkpoints.find? (fun c => c.tag == some idOrTag)

/-- Fixture: an older checkpoint tagged "x". -/
def cpA : SessionCheckpoint :=
  { id := "a", tag := some "x", timestamp := 1
    messages := [{ role := Role.system, content := "sys" },
                 { role := Role.user, content := "A" }]
    provider := "anthropic", model := "claude", workingDir := "/ws"
    stats := createInitialStats 0 }

/-- Fixture: a newer checkpoint whose id is "x". -/
def cpB : SessionCheckpoint :=
  { id := "x", tag := none, timestamp := 2
    messages := [{ role := Role.system, content := "sys" },
                 { role := Role.user, content := "B" }]
    provider := "anthropic", model := "claude", workingDir := "/ws"
    stats := createInitialStats 0 }

/-- Fixture state holding the checkpoints `[cpA, cpB]`. -/
def c7State : AgentState :=
  { baseState with
    session := { baseState.session with checkpoints := [cpA, cpB] } }

/-- C7 counterexample: id-first lookup would pick `cpB` (whose id is "x"),
but the source’s single combined pass restores `cpA` (whose tag is "x"),
which holds different messages. -/
theorem restoreCheckpoint_not_id_first_counterexample :
    lookupIdFirst c7State.session.checkpoints "x" = some cpB
    ∧ (restoreCheckpoint c7State "x").1.messages = cpA.messages
    ∧ cpA.messages ≠ cpB.messages := by
  refine ⟨rfl, rfl, by decide⟩

/-- C7 (amended): `restoreCheckpoint` looks for the first checkpoint in
list order whose id or tag equals the argument in one combined pass (not
id before tag); on no match it returns failure leaving the state
untouched; on a match it replaces the conversation with a copy of that
checkpoint’s messages, sets `currentCheckpoint` to the matched position,
and leaves the checkpoint list itself unchanged. -/
theorem restoreCheckpoint_behavior (st : AgentState) (idOrTag : String) :
    (st.session.checkpoints.find? (checkpointMatches idOrTag) = none →
      restoreCheckpoint st idOrTag = (st, false))
    ∧ ∀ c, st.session.checkpoints.find? (checkpointMatches idOrTag) = some c →
        (restoreCheckpoint st idOrTag).2 = true
        ∧ (restoreCheckpoint st idOrTag).1.messages = c.messages
        ∧ (restoreCheckpoint st idOrTag).1.session.currentCheckpoint
            = (st.session.checkpoints.findIdx (checkpointMatches idOrTag) : Int)
        ∧ (restoreCheckpoint st idOrTag).1.session.checkpoints
            = st.session.checkpoints
        ∧ checkpointMatches idOrTag c = true := by
  constructor
  · intro hnone
    unfold restoreCheckpoint
    rw [hnone]
  · intro c hsome
    unfold restoreCheckpoint
    rw [hsome]
    exact ⟨rfl, rfl, rfl, rfl, List.find?_some hsome⟩

/-- Witness for C7 (amended): restoring "x" on the fixture list finds
`cpA`, the first checkpoint matching by id or tag. -/
theorem restoreCheckpoint_behavior_witness :
    (restoreCheckpoint c7State "x").2 = true
    ∧ (restoreCheckpoint c7State "x").1.messages = cpA.messages
    ∧ (restoreCheckpoint c7State "x").1.session.currentCheckpoint
        = (c7State.session.checkpoints.findIdx (checkpointMatches "x") : Int)
    ∧ (restoreCheckpoint c7State "x").1.session.checkpoints
        = c7State.session.checkpoints
    ∧ checkpointMatches "x" cpA = true :=
  (restoreCheckpoint_behavior c7State "x").2 cpA (by rfl)

/-! ## Conversation compaction (C8) -/

/-- Fixture: a five-message conversation (system plus two exchanges). -/
def c8FiveState : AgentState :=
  { baseState with messages :=
      [{ role := Role.system, content := "sys" },
       { role := Role.user, content := "u1" },
       { role := Role.assistant, content := "a1" },
       { role := Role.user, content := "u2" },
       { role := Role.assistant, content := "a2" }] }

/-- C8 counterexample: at exactly five messages (more than 4) `compact`
leaves the conversation unchanged — the region strictly between the
system message and the last four is empty and no synthetic summary message
is inserted, contrary to the claimed exactly-one synthetic message. -/
theorem compact_five_messages_counterexample :
    4 < c8FiveState.messages.length
    ∧ (compact c8FiveState).messages = c8FiveState.messages
    ∧ (compact c8FiveState).messages
        ≠ c8FiveState.messages.take 1
          ++ [{ role := Role.system
                content := "[Previous conversation summary]\n\n[End summary]" }]
          ++ c8FiveState.messages.drop 1 := by
  refine ⟨by decide, rfl, by decide⟩

/-- C8 (amended): `compact` leaves every conversation of at most five
messages unchanged (at exactly five the elided middle region is empty);
with six or more messages it keeps the system head and the last four
messages verbatim and replaces everything strictly between with exactly
one synthetic system message whose body lists each elided message as
"<role>: <first 200 characters>", joined by newlines, wrapped in the fixed
markers. -/
theorem compact_spec (st : AgentState) :
    (st.messages.length ≤ 5 → (compact st).messages = st.messages)
    ∧ (6 ≤ st.messages.length →
        (compact st).messages
          = st.messages.take 1
            ++ [{ role := Role.system
                  content := "[Previous conversation summary]\n"
                    ++ String.intercalate "\n"
                        (((st.messages.drop 1).take (st.messages.length - 5)).map
                          summarizeMessage)
                    ++ "\n[End summary]" }]
            ++ st.messages.drop (st.messages.length - 4)) := by
  constructor
  · intro h5
    unfold compact
    dsimp only
    by_cases h4 : st.messages.length ≤ 4
    · rw [if_pos h4]
    · rw [if_neg h4]
      have hlen : ((st.messages.drop 1).take (st.messages.length - 5)).length = 0 := by
        simp only [List.length_take, List.length_drop]
        omega
      rw [if_pos hlen]
  · intro h6
    unfold compact
    dsimp only
    have h4 : ¬ st.messages.length ≤ 4 := by omega
    rw [if_neg h4]
    have hlen : ¬ ((st.messages.drop 1).take (st.messages.length - 5)).length = 0 := by
      simp only [List.length_take, List.length_drop]
      omega
    rw [if_neg hlen]

/-- Fixture: a six-message conversation. -/
def c8SixState : AgentState :=
  { baseState with messages :=
      [{ role := Role.system, content := "sys" },
       { role := Role.user, content := "u1" },
       { role := Role.assistant, content := "a1" },
       { role := Role.user, content := "u2" },
       { role := Role.assistant, content := "a2" },
       { role := Role.user, content := "u3" }] }

/-- Witness for C8 (amended): the one-message fixture conversation is
untouched, and the six-message fixture is compacted to system head,
synthetic summary and the last four messages. -/
theorem compact_spec_witness :
    (compact baseState).messages = baseState.messages
    ∧ (compact c8SixState).messages
        = c8SixState.messages.take 1
          ++ [{ role := Role.system
                content := "[Previous conversation summary]\n"
                  ++ String.intercalate "\n"
                      (((c8SixState.messages.drop 1).take
                          (c8SixState.messages.length - 5)).map summarizeMessage)
                  ++ "\n[End summary]" }]
          ++ c8SixState.messages.drop (c8SixState.messages.length - 4) :=
  ⟨(compact_spec baseState).1 (by decide),
   (compact_spec c8SixState).2 (by decide)⟩

end OmniCli
